import Mathlib

/-!
Verification of the tool-calling orchestration core of the browser LLM-agent
(`src/unnamed/part_001`, with configuration in `src/config.js`).

The development shallowly embeds the conversation data model, the concurrent
tool-dispatch step (`Promise.allSettled` over the tool-call closures,
source lines 667-736), the bounded orchestration loop (lines 588-772), the
`google_search` tool handler (lines 122-181) and the identifier-resolution
environment of the `execute_javascript` sandbox (lines 76-117).

Host primitives that are not part of the repository (the browser `fetch`, the
model endpoint, `JSON.parse` of tool arguments, the wall clock) are passed in
as explicit parameters, so every definition is executable on concrete inputs.
-/

namespace LlmAgent

/-- A JSON value, as produced by the host `JSON.parse` and consumed by
`JSON.stringify`.  Tool arguments and tool payloads are built from these. -/
inductive Json where
  | null : Json
  | bool (b : Bool) : Json
  | num (n : Int) : Json
  | str (s : String) : Json
  | arr (xs : List Json) : Json
  | obj (fields : List (String × Json)) : Json

/-- String escaping performed by `JSON.stringify` for the characters that can
occur in this development's payloads. -/
def escapeJsonString (s : String) : String :=
  s.foldl (fun acc c =>
    if c = '"' then acc ++ "\\\""
    else if c = '\\' then acc ++ "\\\\"
    else if c = '\n' then acc ++ "\\n"
    else acc.push c) ""

mutual

/-- Model of the host `JSON.stringify` (compact form; the source sometimes asks
for 2-space indentation, which only changes inter-token whitespace and is
irrelevant to every property below). -/
def stringifyJson : Json → String
  | Json.null => "null"
  | Json.bool b => if b then "true" else "false"
  | Json.num n => toString n
  | Json.str s => "\"" ++ escapeJsonString s ++ "\""
  | Json.arr xs => "[" ++ stringifyArr xs ++ "]"
  | Json.obj fs => "\x7b" ++ stringifyObj fs ++ "\x7d"

def stringifyArr : List Json → String
  | [] => ""
  | [x] => stringifyJson x
  | x :: y :: xs => stringifyJson x ++ "," ++ stringifyArr (y :: xs)

def stringifyObj : List (String × Json) → String
  | [] => ""
  | [(k, v)] => "\"" ++ escapeJsonString k ++ "\":" ++ stringifyJson v
  | (k, v) :: f :: fs =>
      "\"" ++ escapeJsonString k ++ "\":" ++ stringifyJson v ++ "," ++ stringifyObj (f :: fs)

end

/-- `toolCall.function` of an OpenAI-style tool call: the requested tool name and
its arguments as an unparsed JSON string. -/
structure ToolCallFunction where
  name : String
  arguments : String
deriving Repr, DecidableEq

/-- One tool invocation request issued by the model (`message.tool_calls[i]`):
an opaque correlation id plus the function part. -/
structure ToolCall where
  id : String
  function : ToolCallFunction
deriving Repr, DecidableEq

/-- One entry of the global `messages` array.  Fields that a given message kind
does not set in the source are `none` / `false` here, matching `undefined` in
JavaScript (an absent property). -/
structure Message where
  role : String
  content : String := ""
  name : Option String := none
  tool_calls : Option (List ToolCall) := none
  tool_call_id : Option String := none
  isDisplayOnly : Bool := false
  toolCallIndex : Option Nat := none
deriving Repr, DecidableEq

/-- The wire view sent to the model
(src line 627: `messages.filter(msg => !msg.isDisplayOnly)`). -/
def apiMessages (messages : List Message) : List Message :=
  messages.filter (fun msg => !msg.isDisplayOnly)

/-- The three registered tool handlers.  Their bodies perform host effects
(network, code evaluation), so the dispatch step is parametrised by them; a
handler that throws is modelled by `Except.error` carrying `error.message`. -/
structure Handlers where
  google_search : Json → Except String String
  aipipe_workflow : Json → Except String String
  execute_javascript : Json → Except String String

/-- The `switch (functionName)` of the dispatch closure (src lines 684-696):
three known tools, and a default branch that synthesizes an
`Unknown tool` payload instead of invoking anything. -/
def toolSwitch (hs : Handlers) (functionName : String) (args : Json) :
    Except String String :=
  if functionName = "google_search" then hs.google_search args
  else if functionName = "aipipe_workflow" then hs.aipipe_workflow args
  else if functionName = "execute_javascript" then hs.execute_javascript args
  else Except.ok (stringifyJson (Json.obj
    [("error", Json.str ("Unknown tool: " ++ functionName))]))

/-- The `try { switch ... } catch (error) { result = ... }` of the dispatch
closure (src lines 683-699): a throwing handler becomes an errors-as-data
payload rather than a rejection. -/
def runToolResult (hs : Handlers) (functionName : String) (args : Json) : String :=
  match toolSwitch hs functionName args with
  | Except.ok r => r
  | Except.error e => stringifyJson (Json.obj
      [("error", Json.str ("Tool execution failed: " ++ e))])

/-- The presentation-only tool-call announcement pushed before the handler is
invoked (src lines 672-679). -/
def announcementMsg (functionName : String) (args : Json) (index n : Nat) : Message :=
  { role := "assistant"
    name := some "tool-call"
    content := "🔧 **Calling tool: " ++ functionName ++ "** (" ++ toString (index + 1)
      ++ "/" ++ toString n ++ ")\n```json\n" ++ stringifyJson args ++ "\n```"
    isDisplayOnly := true
    toolCallIndex := some index }

/-- The wire tool-result message the closure fulfills with
(src lines 702-707). -/
def wireMsg (hs : Handlers) (tc : ToolCall) (args : Json) : Message :=
  { tool_call_id := some tc.id
    role := "tool"
    name := some tc.function.name
    content := runToolResult hs tc.function.name args }

/-- The presentation copy of the tool result pushed as soon as the handler
settles (src lines 710-716). -/
def displayResultMsg (hs : Handlers) (tc : ToolCall) (args : Json) (index : Nat) :
    Message :=
  { role := "tool"
    name := some tc.function.name
    content := runToolResult hs tc.function.name args
    isDisplayOnly := true
    toolCallIndex := some index }

/-- The body of one `Promise.allSettled` closure (src lines 667-722).
`JSON.parse(toolCall.function.arguments)` (line 669) runs *before* the
`try` block, so a parse failure rejects the promise before anything is pushed:
that case is `none`.  Otherwise the closure produces its announcement, its
display result and the wire result it fulfills with. -/
def runToolCall (hs : Handlers) (parse : String → Option Json) (n : Nat)
    (toolCall : ToolCall) (index : Nat) :
    Option (Message × Message × Message) :=
  match parse toolCall.function.arguments with
  | none => none
  | some args =>
      some (announcementMsg toolCall.function.name args index n,
            displayResultMsg hs toolCall args index,
            wireMsg hs toolCall args)

/-- `toolCalls.map(async (toolCall, index) => ...)` with an explicit running
index: the list of settled outcomes, in input order, as delivered by
`Promise.allSettled` (src line 667). -/
def mapSettled (hs : Handlers) (parse : String → Option Json) (n : Nat) :
    Nat → List ToolCall → List (Option (Message × Message × Message))
  | _, [] => []
  | i, tc :: rest => runToolCall hs parse n tc i :: mapSettled hs parse n (i + 1) rest

/-- The settled results of one dispatch step, in request order. -/
def toolSettled (hs : Handlers) (parse : String → Option Json)
    (toolCalls : List ToolCall) : List (Option (Message × Message × Message)) :=
  mapSettled hs parse toolCalls.length 0 toolCalls

/-- `toolResults.filter(r => r.status === 'fulfilled').map(r => r.value)`
(src lines 725-727): the wire tool-result messages appended to the conversation
after `allSettled` resolves, in request order, rejected entries dropped. -/
def actualToolResults (hs : Handlers) (parse : String → Option Json)
    (toolCalls : List ToolCall) : List Message :=
  (toolSettled hs parse toolCalls).filterMap (fun s => s.map (fun r => r.2.2))

/-- The display-only messages one settled closure contributed, in the
closure's own program order: the announcement, then the display result;
nothing when the argument parse rejected the closure first. -/
def settledEvents : Option (Message × Message × Message) → List Message
  | none => []
  | some (a, d, _) => [a, d]

/-- Per request, the display-only messages its closure pushes, in the closure's
own program order: the announcement, then the display result; nothing when the
argument parse rejects the closure first. -/
def requestEvents (hs : Handlers) (parse : String → Option Json)
    (toolCalls : List ToolCall) : List (List Message) :=
  (toolSettled hs parse toolCalls).map settledEvents

/-- The wire result of a request as a function of that request alone (used to
state that siblings do not interfere). -/
def wireResultOf (hs : Handlers) (parse : String → Option Json) (tc : ToolCall) :
    Option Message :=
  (parse tc.function.arguments).map (fun args => wireMsg hs tc args)

/-- `Merge ls t`: `t` is an interleaving of the sequential event streams `ls`,
preserving each stream's internal order.  This is the set of display traces the
cooperative scheduler can produce while the dispatch closures run
concurrently. -/
inductive Merge {α : Type} : List (List α) → List α → Prop where
  | nil (ls : List (List α)) : (∀ l ∈ ls, l = []) → Merge ls []
  | cons (ls : List (List α)) (i : Nat) (x : α) (xs : List α) (t : List α) :
      ls.get? i = some (x :: xs) → Merge (ls.set i xs) t → Merge ls (x :: t)

/-- What the orchestration loop observes of one model call: the HTTP success
flag and status of the `fetch` (src lines 629-647), the error body text read
when the status is non-success, and `responseData.choices[0].message` when it
is a success. -/
structure ChatResponse where
  ok : Bool
  status : Nat
  statusText : String
  errorText : String
  message : Message
deriving Repr, DecidableEq

/-- Terminal states of one turn-cycle. -/
inductive Outcome where
  | answered : Outcome
  | maxedOut : Outcome
  | errored (msg : String) : Outcome
deriving Repr, DecidableEq

/-- The state the submit handler leaves behind: the conversation log, the
number of model calls performed, and how the cycle ended. -/
structure LoopResult where
  messages : List Message
  modelCalls : Nat
  outcome : Outcome
deriving Repr, DecidableEq

/-- The message thrown and re-surfaced when the model endpoint returns a
non-success status (src lines 644-647). -/
def apiErrorMessage (r : ChatResponse) : String :=
  "API Error: " ++ toString r.status ++ " " ++ r.statusText ++ "\n" ++ r.errorText

/-- The turn the outer `catch` pushes on any cycle failure
(src lines 762-766).  Note: it does NOT set `isDisplayOnly`. -/
def errorTurn (msg : String) : Message :=
  { role := "assistant"
    name := some "error"
    content := "❌ **Error occurred:**\n" ++ msg }

/-- The turn pushed when the loop exhausts `maxLoops`
(src lines 752-756).  Note: it does NOT set `isDisplayOnly`. -/
def maxLoopsTurn : Message :=
  { role := "assistant"
    name := some "error"
    content := "⚠️ Agent reached maximum loop limit. The task may not be fully complete." }

/-- `const maxLoops = 10` (src line 612). -/
def maxLoops : Nat := 10

/-- All messages one dispatch step appends, for the canonical schedule in which
each closure runs to completion before the next starts: the per-request display
events in request order, then the fulfilled wire results.  Concurrency can only
permute the display-only prefix (see `Merge`); the loop-level theorems below do
not depend on that order. -/
def canonicalDispatchMessages (hs : Handlers) (parse : String → Option Json)
    (toolCalls : List ToolCall) : List Message :=
  (requestEvents hs parse toolCalls).flatten ++ actualToolResults hs parse toolCalls

/-- The `for (let i = 0; i < maxLoops; i++)` body together with the
`catch` and the post-loop limit handling (src lines 622-768), with the
remaining iteration budget as fuel.  `responses k` is what the k-th model call
returns; `calls` counts model calls made so far.
- non-success response: the throw at line 645 is caught at line 760, one
  `errorTurn` is appended and the cycle ends (no tool of that iteration runs);
- success without `tool_calls`: the cycle ends in `answered` (line 747);
- success with `tool_calls`: the dispatch messages are appended and the loop
  continues;
- fuel exhausted: the `maxLoopsTurn` is appended (lines 752-756). -/
def agentLoop (hs : Handlers) (parse : String → Option Json)
    (responses : Nat → ChatResponse) :
    Nat → Nat → List Message → LoopResult
  | 0, calls, msgs =>
      { messages := msgs ++ [maxLoopsTurn], modelCalls := calls, outcome := Outcome.maxedOut }
  | Nat.succ fuel, calls, msgs =>
      if (responses calls).ok then
        match (responses calls).message.tool_calls with
        | some toolCalls =>
            agentLoop hs parse responses fuel (calls + 1)
              ((msgs ++ [(responses calls).message])
                ++ canonicalDispatchMessages hs parse toolCalls)
        | none =>
            { messages := msgs ++ [(responses calls).message], modelCalls := calls + 1,
              outcome := Outcome.answered }
      else
        { messages := msgs ++ [errorTurn (apiErrorMessage (responses calls))],
          modelCalls := calls + 1,
          outcome := Outcome.errored (apiErrorMessage (responses calls)) }

/-- Conversation initialisation of the submit handler (src lines 603-620):
push the user turn, then unshift the system prompt when this made the log
length 1. -/
def submitInit (question agentPromptContent : String) (messages : List Message) :
    List Message :=
  let messages2 := messages ++ [{ role := "user", content := question : Message }]
  if messages2.length = 1 then
    { role := "system", content := agentPromptContent : Message } :: messages2
  else messages2

/-- One full turn-cycle for one user submission. -/
def runCycle (hs : Handlers) (parse : String → Option Json)
    (responses : Nat → ChatResponse) (question agentPromptContent : String)
    (messages : List Message) : LoopResult :=
  agentLoop hs parse responses maxLoops 0 (submitInit question agentPromptContent messages)

/-! ### The execute_javascript sandbox's name environment (src lines 76-117) -/

/-- The names the `execute_javascript` handler injects into the evaluated code,
i.e. the keys of `sandboxGlobals` (src lines 79-87), which become the declared
parameters of the constructed function (src lines 90-99). -/
def sandboxGlobalNames : List String :=
  ["Math", "Date", "JSON", "parseInt", "parseFloat", "isNaN", "isFinite",
   "Array", "Object", "String", "Number", "Boolean", "RegExp", "console"]

/-- Bindings reachable from the evaluated code: an injected sandbox parameter,
a binding of the browser's global scope, or nothing. -/
inductive SandboxBinding where
  | injected : SandboxBinding
  | hostGlobal : SandboxBinding
  | unbound : SandboxBinding
deriving Repr, DecidableEq

/-- A sample of the bindings of the host's global scope.  The repository's own
top-level code reads `document`, `localStorage`, `fetch`, `confirm`,
`setTimeout`, `Blob`, `URL` from it, and every browser global scope binds
`window` and `Function`. -/
def hostGlobalNames : List String :=
  ["document", "window", "fetch", "localStorage", "setTimeout", "confirm",
   "Blob", "URL", "Function", "Promise"]

/-- Identifier resolution for the code evaluated by `execute_javascript`.
JavaScript semantics of the `Function` constructor (src line 90): the created
function's scope chain is its own parameter scope followed directly by the
global scope — it does not capture the creating function's locals, and
`"use strict"` does not remove global bindings.  So a free identifier of the
evaluated code resolves to the injected parameter of the same name when there
is one, and otherwise falls through to the host's global scope. -/
def resolveInSandbox (name : String) : SandboxBinding :=
  if sandboxGlobalNames.contains name then SandboxBinding.injected
  else if hostGlobalNames.contains name then SandboxBinding.hostGlobal
  else SandboxBinding.unbound

/-! ### The google_search tool handler (src lines 122-181) -/

/-- JavaScript falsiness of `document.getElementById(..)?.value`: the optional
chain yields `undefined` when the element is missing (`none`), and `!v` is also
true for the empty string. -/
def falsyStr : Option String → Bool
  | none => true
  | some s => s.isEmpty

/-- Property lookup on a JSON object (`undefined` = `none` for every other
shape). -/
def getField : Json → String → Option Json
  | Json.obj fs, k => (fs.find? (fun p => p.1 = k)).map (fun p => p.2)
  | _, _ => none

/-- One hexadecimal digit, upper case, as produced by `encodeURIComponent`. -/
def hexDigit (n : Nat) : Char :=
  if n < 10 then Char.ofNat (48 + n) else Char.ofNat (55 + n)

/-- The characters `encodeURIComponent` leaves unescaped besides
alphanumerics. -/
def uriUnreservedMarks : List Char :=
  ['-', '_', '.', '!', '~', '*', '\'', '(', ')']

/-- Model of the host `encodeURIComponent`: UTF-8 bytes of the input,
percent-escaping everything outside the unreserved set. -/
def encodeURIComponent (s : String) : String :=
  String.mk ((s.toUTF8.toList).foldr (fun b acc =>
    let c := Char.ofNat b.toNat
    if b.toNat < 128 && (c.isAlphanum || uriUnreservedMarks.contains c) then c :: acc
    else '%' :: hexDigit (b.toNat / 16) :: hexDigit (b.toNat % 16) :: acc) [])

/-- What the handler observes of the `fetch` response: the success flag and
status line, and the outcome of `response.json()` (which can itself reject,
modelled by `Except.error` with the parse error's message). -/
structure FetchResponse where
  ok : Bool
  status : Nat
  statusText : String
  jsonBody : Except String Json

/-- `data.searchInformation?.<key>` lifted to an optional object field:
`JSON.stringify` omits a property whose value is `undefined`, so a missing
path contributes no field at all. -/
def searchInfoField (data : Json) (key : String) : List (String × Json) :=
  match (getField data "searchInformation").bind (fun si => getField si key) with
  | some v => [(key, v)]
  | none => []

/-- `item.<key>` lifted to an optional object field of the normalized result
record (omitted by `JSON.stringify` when absent). -/
def itemField (item : Json) (key : String) : List (String × Json) :=
  match getField item key with
  | some v => [(key, v)]
  | none => []

/-- One normalized search record
(src lines 156-163): rank plus the copied item fields. -/
def mapItem (item : Json) (index : Nat) : Json :=
  Json.obj ([("rank", Json.num (Int.ofNat (index + 1)))]
    ++ itemField item "title" ++ itemField item "link" ++ itemField item "snippet"
    ++ itemField item "displayLink" ++ itemField item "formattedUrl")

/-- `items.slice(0, 5).map((item, index) => ...)` with the running index. -/
def mapItems : Nat → List Json → List Json
  | _, [] => []
  | i, item :: rest => mapItem item i :: mapItems (i + 1) rest

/-- The value of a nonnegative decimal digit string, `none` when it does not
start with a digit. -/
def digitsPrefixVal (s : String) : Option Int :=
  let ds := s.toList.takeWhile Char.isDigit
  if ds.isEmpty then none
  else some (ds.foldl (fun a c => a * 10 + Int.ofNat (c.toNat - 48)) 0)

/-- `parseInt(data.searchInformation?.totalResults || 0)` (src line 168): the
API reports `totalResults` as a decimal string; a missing/falsy value falls
back to `0`, and a non-numeric string would make `parseInt` yield `NaN`, which
`JSON.stringify` renders as `null`. -/
def totalResultsJson (data : Json) : Json :=
  match (getField data "searchInformation").bind (fun si => getField si "totalResults") with
  | some (Json.str s) =>
      if s.isEmpty then Json.num 0
      else match digitsPrefixVal s with
        | some n => Json.num n
        | none => Json.null
  | some (Json.num n) => Json.num n
  | _ => Json.num 0

/-- `data.items` as a list (absent, null or empty all behave as the
zero-results case of src line 145). -/
def dataItems (data : Json) : List Json :=
  match getField data "items" with
  | some (Json.arr xs) => xs
  | _ => []

/-- The `try` block of the handler (src lines 135-171); `throw` is
`Except.error` and is caught by `googleCatch` below.
`fetchOutcome` is the settled host `fetch`: `Except.error` when the network
request itself rejects. -/
def googleTryBody (fetchOutcome : Except String FetchResponse) (query : String) :
    Except String String := do
  let response ← fetchOutcome
  if !response.ok then
    let errorData :=
      match response.jsonBody with
      | Except.ok d => d
      | Except.error _ => Json.obj []
    let msg :=
      match (getField errorData "error").bind (fun e => getField e "message") with
      | some (Json.str m) => m
      | _ => response.statusText
    throw ("Google API error: " ++ toString response.status ++ " - " ++ msg)
  else
    let data ← response.jsonBody
    let items := dataItems data
    if items.length = 0 then
      return stringifyJson (Json.obj
        ([("success", Json.bool true), ("query", Json.str query),
          ("totalResults", Json.num 0),
          ("message", Json.str "No search results found for this query.")]
          ++ searchInfoField data "searchTime"))
    else
      let results := mapItems 0 (items.take 5)
      return stringifyJson (Json.obj
        ([("success", Json.bool true), ("query", Json.str query),
          ("totalResults", totalResultsJson data)]
          ++ searchInfoField data "searchTime"
          ++ [("results", Json.arr results)]))

/-- The `catch` payload of the handler (src lines 173-180).  `now` stands for
`new Date().toISOString()`. -/
def googleCatch (e query now : String) : String :=
  stringifyJson (Json.obj
    [("success", Json.bool false), ("error", Json.str e),
     ("query", Json.str query), ("timestamp", Json.str now)])

/-- The handler's result together with the URLs it actually fetched, so that
"no network call was attempted" is an observable fact. -/
structure GoogleSearchOutput where
  output : String
  requests : List String
deriving Repr, DecidableEq

/-- The configuration-required payload returned when the API key or CX id is
missing (src lines 127-130). -/
def googleConfigRequiredOutput : String :=
  stringifyJson (Json.obj
    [("error", Json.str "Google Search API Key or CX ID is missing. Please configure them in the sidebar."),
     ("configRequired", Json.bool true)])

/-- The `google_search` handler (src lines 122-181).  `apiKey` and `cx` are the
two sidebar fields read at lines 123-124 (`none` when the element is missing);
`fetchOutcome` is what the single `fetch` of line 136 would settle to, and
`now` is the wall clock used by the catch payload. -/
def google_search (apiKey cx : Option String)
    (fetchOutcome : Except String FetchResponse) (now query : String) :
    GoogleSearchOutput :=
  if falsyStr apiKey || falsyStr cx then
    { output := googleConfigRequiredOutput, requests := [] }
  else
    let url := "https://www.googleapis.com/customsearch/v1?key=" ++ apiKey.getD ""
      ++ "&cx=" ++ cx.getD "" ++ "&q=" ++ encodeURIComponent query
    match googleTryBody fetchOutcome query with
    | Except.ok out => { output := out, requests := [url] }
    | Except.error e => { output := googleCatch e query now, requests := [url] }

/-! ### Concrete instances used by the witnesses and counterexamples -/

/-- Concrete stand-in for the host `JSON.parse` in the concrete instances
below: it parses the empty-object source and throws (`none`) on anything
else, exactly as `JSON.parse("oops")` throws a `SyntaxError`. -/
def exParse : String → Option Json :=
  fun s => if s = "\x7b\x7d" then some (Json.obj []) else none

/-- Concrete handlers that all succeed. -/
def exHandlers : Handlers :=
  { google_search := fun _ => Except.ok "\"g-ok\""
    aipipe_workflow := fun _ => Except.ok "\"a-ok\""
    execute_javascript := fun _ => Except.ok "\"js-ok\"" }

/-- Concrete handlers where the `execute_javascript` handler throws. -/
def exThrowHandlers : Handlers :=
  { exHandlers with execute_javascript := fun _ => Except.error "boom" }

/-- A well-formed tool call for the JavaScript tool. -/
def exCall0 : ToolCall :=
  { id := "call_0", function := { name := "execute_javascript", arguments := "\x7b\x7d" } }

/-- A well-formed tool call for the search tool. -/
def exCall1 : ToolCall :=
  { id := "call_1", function := { name := "google_search", arguments := "\x7b\x7d" } }

/-- A tool call whose `arguments` string is not valid JSON. -/
def exBadCall : ToolCall :=
  { id := "call_bad", function := { name := "execute_javascript", arguments := "oops" } }

/-- A successful model response whose assistant message carries (an empty list
of) tool calls — truthy `tool_calls`, so the loop keeps iterating. -/
def exToolsResponse : ChatResponse :=
  { ok := true, status := 200, statusText := "OK", errorText := ""
    message := { role := "assistant", tool_calls := some [] } }

/-- A successful model response carrying a final text answer. -/
def exFinalResponse : ChatResponse :=
  { ok := true, status := 200, statusText := "OK", errorText := ""
    message := { role := "assistant", content := "done" } }

/-- A failed model call (HTTP 500). -/
def exFailResponse : ChatResponse :=
  { ok := false, status := 500, statusText := "Internal Server Error"
    errorText := "upstream exploded", message := { role := "assistant" } }

/-- The announcement of `exCall0` in a two-call dispatch. -/
def exA0 : Message := announcementMsg "execute_javascript" (Json.obj []) 0 2

/-- The display result of `exCall0` in a two-call dispatch. -/
def exD0 : Message := displayResultMsg exHandlers exCall0 (Json.obj []) 0

/-- The announcement of `exCall1` in a two-call dispatch. -/
def exA1 : Message := announcementMsg "google_search" (Json.obj []) 1 2

/-- The display result of `exCall1` in a two-call dispatch. -/
def exD1 : Message := displayResultMsg exHandlers exCall1 (Json.obj []) 1

/-! ### Lemmas about the dispatch step -/

theorem mapSettled_get? (hs : Handlers) (parse : String → Option Json) (n : Nat) :
    ∀ (tcs : List ToolCall) (i j : Nat),
      (mapSettled hs parse n i tcs).get? j
        = (tcs.get? j).map (fun tc => runToolCall hs parse n tc (i + j)) := by
  intro tcs
  induction tcs with
  | nil => intro i j; simp [mapSettled]
  | cons tc rest ih =>
      intro i j
      cases j with
      | zero => simp [mapSettled]
      | succ j' =>
          simp only [mapSettled, List.get?]
          rw [ih (i + 1) j']
          have : i + 1 + j' = i + (j' + 1) := by omega
          rw [this]

theorem toolSettled_get? (hs : Handlers) (parse : String → Option Json)
    (tcs : List ToolCall) (j : Nat) :
    (toolSettled hs parse tcs).get? j
      = (tcs.get? j).map (fun tc => runToolCall hs parse tcs.length tc j) := by
  have h := mapSettled_get? hs parse tcs.length tcs 0 j
  simpa [toolSettled] using h

theorem requestEvents_get? (hs : Handlers) (parse : String → Option Json)
    (tcs : List ToolCall) (j : Nat) :
    (requestEvents hs parse tcs).get? j
      = (tcs.get? j).map (fun tc => settledEvents (runToolCall hs parse tcs.length tc j)) := by
  simp only [requestEvents, List.get?_map, toolSettled_get?]
  cases tcs.get? j <;> rfl

theorem mapSettled_filterMap_wire (hs : Handlers) (parse : String → Option Json)
    (n : Nat) :
    ∀ (tcs : List ToolCall) (i : Nat),
      (mapSettled hs parse n i tcs).filterMap (fun s => s.map (fun r => r.2.2))
        = tcs.filterMap (wireResultOf hs parse) := by
  intro tcs
  induction tcs with
  | nil => intro i; rfl
  | cons tc rest ih =>
      intro i
      simp only [mapSettled, List.filterMap_cons]
      cases hp : parse tc.function.arguments with
      | none => simp [runToolCall, hp, wireResultOf, ih (i + 1)]
      | some args => simp [runToolCall, hp, wireResultOf, ih (i + 1)]

theorem actualToolResults_eq (hs : Handlers) (parse : String → Option Json)
    (tcs : List ToolCall) :
    actualToolResults hs parse tcs = tcs.filterMap (wireResultOf hs parse) := by
  simpa [actualToolResults, toolSettled] using
    mapSettled_filterMap_wire hs parse tcs.length tcs 0

theorem filterMap_wire_ids (hs : Handlers) (parse : String → Option Json) :
    ∀ (tcs : List ToolCall),
      (∀ tc ∈ tcs, (parse tc.function.arguments).isSome = true) →
      (tcs.filterMap (wireResultOf hs parse)).map (fun m => m.tool_call_id)
        = tcs.map (fun tc => some tc.id) := by
  intro tcs
  induction tcs with
  | nil => intro _; rfl
  | cons tc rest ih =>
      intro hall
      have htc := hall tc (List.mem_cons_self tc rest)
      cases hp : parse tc.function.arguments with
      | none => rw [hp] at htc; simp at htc
      | some args =>
          simp only [List.filterMap_cons, wireResultOf, hp, Option.map_some']
          simp only [List.map_cons, wireMsg]
          exact congrArg (List.cons (some tc.id))
            (ih (fun tc2 h2 => hall tc2 (List.mem_cons_of_mem tc h2)))

theorem actualToolResults_ids (hs : Handlers) (parse : String → Option Json)
    (tcs : List ToolCall)
    (hall : ∀ tc ∈ tcs, (parse tc.function.arguments).isSome = true) :
    (actualToolResults hs parse tcs).map (fun m => m.tool_call_id)
      = tcs.map (fun tc => some tc.id) := by
  rw [actualToolResults_eq]
  exact filterMap_wire_ids hs parse tcs hall

theorem actualToolResults_length (hs : Handlers) (parse : String → Option Json)
    (tcs : List ToolCall)
    (hall : ∀ tc ∈ tcs, (parse tc.function.arguments).isSome = true) :
    (actualToolResults hs parse tcs).length = tcs.length := by
  have h := actualToolResults_ids hs parse tcs hall
  have h1 : ((actualToolResults hs parse tcs).map (fun m => m.tool_call_id)).length
      = (tcs.map (fun tc => some tc.id)).length := by rw [h]
  simpa using h1

theorem actualToolResults_get? (hs : Handlers) (parse : String → Option Json) :
    ∀ (tcs : List ToolCall),
      (∀ tc ∈ tcs, (parse tc.function.arguments).isSome = true) →
      ∀ (j : Nat),
        (actualToolResults hs parse tcs).get? j
          = (tcs.get? j).bind (wireResultOf hs parse) := by
  intro tcs
  induction tcs with
  | nil => intro _ j; simp [actualToolResults_eq]
  | cons tc rest ih =>
      intro hall j
      have htc := hall tc (List.mem_cons_self tc rest)
      have hrest : ∀ tc2 ∈ rest, (parse tc2.function.arguments).isSome = true :=
        fun tc2 h2 => hall tc2 (List.mem_cons_of_mem tc h2)
      cases hp : parse tc.function.arguments with
      | none => rw [hp] at htc; simp at htc
      | some args =>
          rw [actualToolResults_eq] at *
          simp only [List.filterMap_cons, wireResultOf, hp, Option.map_some']
          cases j with
          | zero => simp [wireResultOf, hp]
          | succ j' => simpa using ih hrest j'

theorem mapSettled_events_count (hs : Handlers) (parse : String → Option Json)
    (n : Nat) :
    ∀ (tcs : List ToolCall) (i : Nat),
      (∀ tc ∈ tcs, (parse tc.function.arguments).isSome = true) →
      ((((mapSettled hs parse n i tcs).map settledEvents).flatten).filter
          (fun m => m.role == "tool")).length = tcs.length := by
  intro tcs
  induction tcs with
  | nil => intro i _; rfl
  | cons tc rest ih =>
      intro i hall
      have htc := hall tc (List.mem_cons_self tc rest)
      have hrest : ∀ tc2 ∈ rest, (parse tc2.function.arguments).isSome = true :=
        fun tc2 h2 => hall tc2 (List.mem_cons_of_mem tc h2)
      cases hp : parse tc.function.arguments with
      | none => rw [hp] at htc; simp at htc
      | some args =>
          simp only [mapSettled, List.map_cons, List.flatten_cons, runToolCall, hp,
            settledEvents, List.filter_append, List.length_append]
          rw [ih (i + 1) hrest]
          simp [announcementMsg, displayResultMsg, List.filter]
          omega

theorem requestEvents_count (hs : Handlers) (parse : String → Option Json)
    (tcs : List ToolCall)
    (hall : ∀ tc ∈ tcs, (parse tc.function.arguments).isSome = true) :
    (((requestEvents hs parse tcs).flatten).filter
        (fun m => m.role == "tool")).length = tcs.length := by
  simpa [requestEvents, toolSettled] using
    mapSettled_events_count hs parse tcs.length tcs 0 hall

/-! ### Lemmas about interleavings -/

theorem merge_filter_eq {α : Type} (p : α → Bool) :
    ∀ {ls : List (List α)} {t : List α}, Merge ls t →
    ∀ (i : Nat) (li : List α), ls.get? i = some li →
    (∀ (j : Nat) (lj : List α), j ≠ i → ls.get? j = some lj → ∀ x ∈ lj, p x = false) →
    t.filter p = li.filter p := by
  intro ls t h
  induction h with
  | nil ls hall =>
      intro i li hi _
      have : li = [] := hall li (List.get?_mem hi)
      subst this; rfl
  | cons ls k x xs t hk _ ih =>
      intro i li hi hother
      by_cases hki : k = i
      · subst hki
        rw [hk] at hi
        have hli : li = x :: xs := by injection hi with h'; exact h'.symm
        subst hli
        have hklen : k < ls.length := by
          by_contra hge
          rw [List.get?_eq_none.mpr (Nat.le_of_not_lt hge)] at hk
          exact Option.noConfusion hk
        have hset : (ls.set k xs).get? k = some xs := by
          rw [List.get?_set_eq, hk]; rfl
        have hother2 : ∀ (j : Nat) (lj : List α), j ≠ k →
            (ls.set k xs).get? j = some lj → ∀ y ∈ lj, p y = false := by
          intro j lj hj hjget y hy
          rw [List.get?_set_ne xs ls (fun h => hj h.symm)] at hjget
          exact hother j lj hj hjget y hy
        have ht := ih k xs hset hother2
        cases hpx : p x <;> simp [List.filter, hpx, ht]
      · have hpx : p x = false :=
          hother k (x :: xs) hki hk x (List.mem_cons_self x xs)
        have hset : (ls.set k xs).get? i = some li := by
          rw [List.get?_set_ne xs ls hki]; exact hi
        have hother2 : ∀ (j : Nat) (lj : List α), j ≠ i →
            (ls.set k xs).get? j = some lj → ∀ y ∈ lj, p y = false := by
          intro j lj hj hjget y hy
          by_cases hjk : j = k
          · have hg : (ls.set k xs).get? j = some xs := by
              rw [hjk, List.get?_set_eq, hk]; rfl
            rw [hg] at hjget
            have hlj : xs = lj := by injection hjget
            rw [← hlj] at hy
            exact hother j (x :: xs) hj (by rw [hjk]; exact hk) y
              (List.mem_cons_of_mem x hy)
          · rw [List.get?_set_ne xs ls (fun h => hjk h.symm)] at hjget
            exact hother j lj hj hjget y hy
        have ht := ih i li hset hother2
        simp [List.filter, hpx, ht]

theorem filter_eq_single_exists {α : Type} (p : α → Bool) :
    ∀ (l : List α) (a : α), l.filter p = [a] → ∃ k, l.get? k = some a := by
  intro l
  induction l with
  | nil => intro a h; exact absurd h (by simp)
  | cons x xs ih =>
      intro a h
      cases hpx : p x with
      | true =>
          rw [List.filter_cons_of_pos hpx] at h
          injection h with h1 _
          exact ⟨0, by rw [h1]; rfl⟩
      | false =>
          rw [List.filter_cons_of_neg (by simp [hpx])] at h
          obtain ⟨k, hk⟩ := ih a h
          exact ⟨k + 1, hk⟩

theorem filter_eq_pair_exists {α : Type} (p : α → Bool) :
    ∀ (l : List α) (a b : α), l.filter p = [a, b] →
      ∃ j k, j < k ∧ l.get? j = some a ∧ l.get? k = some b := by
  intro l
  induction l with
  | nil => intro a b h; exact absurd h (by simp)
  | cons x xs ih =>
      intro a b h
      cases hpx : p x with
      | true =>
          rw [List.filter_cons_of_pos hpx] at h
          injection h with h1 h2
          obtain ⟨k, hk⟩ := filter_eq_single_exists p xs b h2
          exact ⟨0, k + 1, Nat.succ_pos k, by rw [h1]; rfl, hk⟩
      | false =>
          rw [List.filter_cons_of_neg (by simp [hpx])] at h
          obtain ⟨j, k, hjk, hj, hk⟩ := ih a b h
          exact ⟨j + 1, k + 1, Nat.succ_lt_succ hjk, hj, hk⟩

/-! ### Lemmas about the orchestration loop -/

theorem agentLoop_calls_le (hs : Handlers) (parse : String → Option Json)
    (responses : Nat → ChatResponse) :
    ∀ (fuel calls : Nat) (msgs : List Message),
      (agentLoop hs parse responses fuel calls msgs).modelCalls ≤ calls + fuel := by
  intro fuel
  induction fuel with
  | zero => intro calls msgs; simp [agentLoop]
  | succ fuel ih =>
      intro calls msgs
      rw [agentLoop]
      by_cases hok : (responses calls).ok
      · rw [if_pos hok]
        cases htc : (responses calls).message.tool_calls with
        | none =>
            show calls + 1 ≤ calls + (fuel + 1)
            omega
        | some tcs =>
            have h := ih (calls + 1)
              ((msgs ++ [(responses calls).message]) ++
                canonicalDispatchMessages hs parse tcs)
            show (agentLoop hs parse responses fuel (calls + 1)
              ((msgs ++ [(responses calls).message]) ++
                canonicalDispatchMessages hs parse tcs)).modelCalls ≤ calls + (fuel + 1)
            omega
      · rw [if_neg hok]
        show calls + 1 ≤ calls + (fuel + 1)
        omega

theorem agentLoop_all_tools (hs : Handlers) (parse : String → Option Json)
    (responses : Nat → ChatResponse) :
    ∀ (fuel calls : Nat) (msgs : List Message),
      (∀ k, calls ≤ k → k < calls + fuel →
        (responses k).ok = true ∧ (responses k).message.tool_calls ≠ none) →
      (agentLoop hs parse responses fuel calls msgs).outcome = Outcome.maxedOut ∧
      (agentLoop hs parse responses fuel calls msgs).modelCalls = calls + fuel ∧
      (agentLoop hs parse responses fuel calls msgs).messages.getLast?
        = some maxLoopsTurn := by
  intro fuel
  induction fuel with
  | zero =>
      intro calls msgs _
      refine ⟨rfl, rfl, ?_⟩
      simp [agentLoop, List.getLast?_concat]
  | succ fuel ih =>
      intro calls msgs hall
      have h0 := hall calls (Nat.le_refl calls) (by omega)
      rw [agentLoop]
      rw [if_pos h0.1]
      cases htc : (responses calls).message.tool_calls with
      | none => exact absurd htc h0.2
      | some tcs =>
          have hall2 : ∀ k, calls + 1 ≤ k → k < calls + 1 + fuel →
              (responses k).ok = true ∧ (responses k).message.tool_calls ≠ none :=
            fun k h1 h2 => hall k (by omega) (by omega)
          have h := ih (calls + 1)
            ((msgs ++ [(responses calls).message]) ++
              canonicalDispatchMessages hs parse tcs) hall2
          refine ⟨h.1, ?_, h.2.2⟩
          rw [h.2.1]; omega

/-! ### Claim theorems -/

/-- Claim C1, counterexample: the claim is false as stated.  A single tool
request whose `arguments` string does not parse (here `"oops"`, on which
`JSON.parse` throws) yields zero wire result turns and zero presentation result
turns, not one of each: the `JSON.parse` at src line 669 runs before the
per-request `try`, so the closure rejects and the `fulfilled` filter at
line 726 drops the request entirely. -/
theorem c1_parse_failure_drops_result_pair :
    (actualToolResults exHandlers exParse [exBadCall]).length = 0 ∧
    requestEvents exHandlers exParse [exBadCall] = [[]] ∧
    [exBadCall].length = 1 := by decide

/-- Claim C1 (amended): for every assistant turn whose N tool requests all have
parseable arguments, the dispatch step appends exactly N wire tool-result turns
and exactly N presentation tool-result turns, the k-th wire turn's
`tool_call_id` being exactly the k-th request's id; a request whose arguments
fail to parse contributes neither turn. -/
theorem c1_dispatch_counts_and_pairing (hs : Handlers)
    (parse : String → Option Json) (tcs : List ToolCall)
    (hall : ∀ tc ∈ tcs, (parse tc.function.arguments).isSome = true) :
    (actualToolResults hs parse tcs).length = tcs.length ∧
    (actualToolResults hs parse tcs).map (fun m => m.tool_call_id)
      = tcs.map (fun tc => some tc.id) ∧
    (((requestEvents hs parse tcs).flatten).filter
        (fun m => m.role == "tool")).length = tcs.length :=
  ⟨actualToolResults_length hs parse tcs hall,
   actualToolResults_ids hs parse tcs hall,
   requestEvents_count hs parse tcs hall⟩

/-- Witness for the amended C1 at a concrete two-request dispatch. -/
theorem c1_dispatch_counts_and_pairing_witness :
    (actualToolResults exHandlers exParse [exCall0, exCall1]).length = 2 ∧
    (actualToolResults exHandlers exParse [exCall0, exCall1]).map
        (fun m => m.tool_call_id) = [some "call_0", some "call_1"] ∧
    (((requestEvents exHandlers exParse [exCall0, exCall1]).flatten).filter
        (fun m => m.role == "tool")).length = 2 :=
  c1_dispatch_counts_and_pairing exHandlers exParse [exCall0, exCall1] (by decide)

/-- Claim C2, counterexample: the claim is false as stated.  In a dispatch of
two requests where the second one's arguments do not parse, the parse failure
is NOT reported as a tool-level error result: the failed request gets no
result turn at all (wire or presentation) — the rejection is merely dropped by
the `fulfilled` filter (src lines 725-727) and logged with `console.warn`. -/
theorem c2_parse_failure_not_reported :
    (actualToolResults exHandlers exParse [exCall1, exBadCall]).filter
        (fun m => m.tool_call_id == some "call_bad") = [] ∧
    (requestEvents exHandlers exParse [exCall1, exBadCall]).get? 1 = some [] ∧
    (actualToolResults exHandlers exParse [exCall1, exBadCall]).length = 1 := by
  decide

/-- Claim C2 (amended): a tool request whose arguments fail to parse rejects
its own `allSettled` slot only: the dispatch loop does not crash, every other
request is dispatched exactly as it would be on its own, but the failing
request is silently dropped — it produces no announcement, no presentation
result and no wire result (rather than a tool-level error result). -/
theorem c2_parse_failure_confined_but_dropped (hs : Handlers)
    (parse : String → Option Json) (tcs : List ToolCall) (i j : Nat)
    (tc : ToolCall) (hi : tcs.get? i = some tc)
    (hbad : parse tc.function.arguments = none) :
    (toolSettled hs parse tcs).get? i = some none ∧
    (requestEvents hs parse tcs).get? i = some [] ∧
    (toolSettled hs parse tcs).get? j
      = (tcs.get? j).map (fun tc2 => runToolCall hs parse tcs.length tc2 j) := by
  refine ⟨?_, ?_, toolSettled_get? hs parse tcs j⟩
  · rw [toolSettled_get?, hi]
    simp [runToolCall, hbad]
  · rw [requestEvents_get?, hi]
    simp [runToolCall, hbad, settledEvents]

/-- Witness for the amended C2 at a concrete two-request dispatch. -/
theorem c2_parse_failure_confined_but_dropped_witness :
    (toolSettled exHandlers exParse [exCall1, exBadCall]).get? 1 = some none ∧
    (requestEvents exHandlers exParse [exCall1, exBadCall]).get? 1 = some [] ∧
    (toolSettled exHandlers exParse [exCall1, exBadCall]).get? 0
      = ([exCall1, exBadCall].get? 0).map
          (fun tc2 => runToolCall exHandlers exParse 2 tc2 0) :=
  c2_parse_failure_confined_but_dropped exHandlers exParse [exCall1, exBadCall]
    1 0 exBadCall (by decide) (by rfl)

/-- Claim C3, counterexample: the claim is false as stated.  The error turns
are pushed without `isDisplayOnly` (src lines 752-756 and 762-766), so they
survive the wire filter: after a cycle that exhausts the iteration ceiling, the
`maxLoopsTurn` error turn is a member of the wire view of the resulting
conversation state. -/
theorem c3_error_turn_reaches_wire_view :
    maxLoopsTurn ∈ apiMessages
      (runCycle exHandlers exParse (fun _ => exToolsResponse) "q" "prompt" []).messages ∧
    maxLoopsTurn.name = some "error" ∧
    maxLoopsTurn.isDisplayOnly = false := by decide

/-- Claim C3 (amended): the wire view excludes exactly the turns marked
`isDisplayOnly` — every member of the wire view has `isDisplayOnly = false` —
but the error turns are NOT marked presentation-only, so an appended error turn
is included in the wire view rather than excluded from it. -/
theorem c3_wire_view_filters_display_only (messages : List Message) (m : Message)
    (hm : m ∈ apiMessages messages) (s : String) :
    m.isDisplayOnly = false ∧
    (errorTurn s).isDisplayOnly = false ∧
    errorTurn s ∈ apiMessages (messages ++ [errorTurn s]) := by
  refine ⟨?_, rfl, ?_⟩
  · have h := (List.mem_filter.mp hm).2
    simpa using h
  · unfold apiMessages
    rw [List.filter_append]
    apply List.mem_append_right
    simp [errorTurn, List.filter]

/-- Witness for the amended C3 at a concrete conversation state. -/
theorem c3_wire_view_filters_display_only_witness :
    ({ role := "user", content := "hi" : Message }).isDisplayOnly = false ∧
    (errorTurn "boom").isDisplayOnly = false ∧
    errorTurn "boom" ∈ apiMessages
      ([{ role := "user", content := "hi" : Message }] ++ [errorTurn "boom"]) :=
  c3_wire_view_filters_display_only [{ role := "user", content := "hi" }]
    { role := "user", content := "hi" } (by decide) "boom"

/-- Claim C4: if the handler of the i-th of N concurrently dispatched requests
throws (all arguments parseable), every request still yields a wire result
(length N), the i-th result is the errors-as-data payload
`{error: "Tool execution failed: <message>"}` rather than a propagated
failure, and every sibling's result is exactly the value determined by that
sibling's own request alone — the throw neither blocks nor invalidates them,
and the dispatch step returns normally to the loop. -/
theorem c4_sibling_isolation (hs : Handlers) (parse : String → Option Json)
    (tcs : List ToolCall) (i j : Nat) (tc : ToolCall) (args : Json) (e : String)
    (hall : ∀ tc2 ∈ tcs, (parse tc2.function.arguments).isSome = true)
    (hi : tcs.get? i = some tc) (hargs : parse tc.function.arguments = some args)
    (hthrow : toolSwitch hs tc.function.name args = Except.error e) (hj : j ≠ i) :
    (actualToolResults hs parse tcs).length = tcs.length ∧
    (actualToolResults hs parse tcs).get? i = some
      { tool_call_id := some tc.id, role := "tool", name := some tc.function.name,
        content := stringifyJson (Json.obj
          [("error", Json.str ("Tool execution failed: " ++ e))]) } ∧
    (actualToolResults hs parse tcs).get? j
      = (tcs.get? j).bind (wireResultOf hs parse) := by
  refine ⟨actualToolResults_length hs parse tcs hall, ?_,
    actualToolResults_get? hs parse tcs hall j⟩
  rw [actualToolResults_get? hs parse tcs hall i, hi]
  simp [wireResultOf, hargs, wireMsg, runToolResult, hthrow]

/-- Witness for C4: the JavaScript handler throws, the search handler's result
is untouched and both results are present. -/
theorem c4_sibling_isolation_witness :
    (actualToolResults exThrowHandlers exParse [exCall0, exCall1]).length = 2 ∧
    (actualToolResults exThrowHandlers exParse [exCall0, exCall1]).get? 0 = some
      { tool_call_id := some "call_0", role := "tool",
        name := some "execute_javascript",
        content := stringifyJson (Json.obj
          [("error", Json.str "Tool execution failed: boom")]) } ∧
    (actualToolResults exThrowHandlers exParse [exCall0, exCall1]).get? 1
      = ([exCall0, exCall1].get? 1).bind (wireResultOf exThrowHandlers exParse) :=
  c4_sibling_isolation exThrowHandlers exParse [exCall0, exCall1] 0 1 exCall0
    (Json.obj []) "boom" (by decide) (by decide) (by rfl) (by rfl) (by decide)

/-- Claim C5: every submission performs at most `maxLoops = 10` model calls;
and when every one of the first 10 responses still carries tool requests, the
cycle makes exactly 10 calls (no 11th), ends in the `maxedOut` terminal state
and appends the maximum-loop-limit error turn as its final message. -/
theorem c5_iteration_ceiling (hs : Handlers) (parse : String → Option Json)
    (responses : Nat → ChatResponse) (question agentPromptContent : String)
    (messages : List Message) :
    (runCycle hs parse responses question agentPromptContent messages).modelCalls
      ≤ maxLoops ∧
    ((∀ k, k < maxLoops →
        (responses k).ok = true ∧ (responses k).message.tool_calls ≠ none) →
      (runCycle hs parse responses question agentPromptContent messages).modelCalls
          = maxLoops ∧
      (runCycle hs parse responses question agentPromptContent messages).outcome
          = Outcome.maxedOut ∧
      (runCycle hs parse responses question agentPromptContent messages).messages.getLast?
          = some maxLoopsTurn) := by
  constructor
  · have h := agentLoop_calls_le hs parse responses maxLoops 0
      (submitInit question agentPromptContent messages)
    simpa [runCycle] using h
  · intro hall
    have h := agentLoop_all_tools hs parse responses maxLoops 0
      (submitInit question agentPromptContent messages)
      (fun k _ h2 => hall k (by omega))
    exact ⟨h.2.1, h.1, h.2.2⟩

/-- Witness for C5: a model that answers every call with a tool-requesting
assistant turn drives the cycle to exactly 10 calls and the limit turn. -/
theorem c5_iteration_ceiling_witness :
    (runCycle exHandlers exParse (fun _ => exToolsResponse) "q" "prompt" []).modelCalls
      ≤ maxLoops ∧
    ((runCycle exHandlers exParse (fun _ => exToolsResponse) "q" "prompt" []).modelCalls
        = maxLoops ∧
     (runCycle exHandlers exParse (fun _ => exToolsResponse) "q" "prompt" []).outcome
        = Outcome.maxedOut ∧
     (runCycle exHandlers exParse (fun _ => exToolsResponse) "q" "prompt" []).messages.getLast?
        = some maxLoopsTurn) :=
  ⟨(c5_iteration_ceiling exHandlers exParse (fun _ => exToolsResponse)
      "q" "prompt" []).1,
   (c5_iteration_ceiling exHandlers exParse (fun _ => exToolsResponse)
      "q" "prompt" []).2 (by decide)⟩

/-- Claim C6: when the model call of any iteration returns a non-success HTTP
response, the cycle fails as a whole: exactly one turn — the error turn built
from the API error text — is appended, no tool of that iteration is dispatched
(nothing else is appended and no handler is consulted), the loop halts with the
`errored` outcome having made no further model call, and control returns
normally (the thrown error is caught, not crashing the host). -/
theorem c6_model_call_failure_fatal (hs : Handlers) (parse : String → Option Json)
    (responses : Nat → ChatResponse) (fuel calls : Nat) (msgs : List Message)
    (hfail : (responses calls).ok = false) :
    agentLoop hs parse responses (fuel + 1) calls msgs =
      { messages := msgs ++ [errorTurn (apiErrorMessage (responses calls))],
        modelCalls := calls + 1,
        outcome := Outcome.errored (apiErrorMessage (responses calls)) } := by
  rw [agentLoop, if_neg (by simp [hfail])]

/-- Witness for C6: an HTTP 500 on the first model call of a cycle appends the
single error turn and stops after one model call. -/
theorem c6_model_call_failure_fatal_witness :
    agentLoop exHandlers exParse (fun _ => exFailResponse) 10 0
        [{ role := "system", content := "sp" }, { role := "user", content := "q" }]
      = { messages := [{ role := "system", content := "sp" },
                       { role := "user", content := "q" },
                       errorTurn (apiErrorMessage exFailResponse)],
          modelCalls := 1,
          outcome := Outcome.errored (apiErrorMessage exFailResponse) } :=
  c6_model_call_failure_fatal exHandlers exParse (fun _ => exFailResponse) 9 0
    [{ role := "system", content := "sp" }, { role := "user", content := "q" }]
    (by decide)

/-- Claim C7: the claim matches the code's own documentation ("Executes
sandboxed JavaScript code ... Cannot access DOM or window", src line 57), but
the code does not deliver it: a function built with the `Function` constructor
executes with the global scope in its scope chain, so any identifier not
shadowed by the 14 injected parameter names — in particular `document` and
`window` — resolves to the host's global environment.  Evaluated code such as
`return document.title` therefore reaches the host DOM. -/
theorem c7_sandbox_reaches_host_globals :
    resolveInSandbox "document" = SandboxBinding.hostGlobal ∧
    resolveInSandbox "window" = SandboxBinding.hostGlobal ∧
    sandboxGlobalNames.contains "document" = false ∧
    sandboxGlobalNames.contains "window" = false := by decide

/-- Claim C8: in every interleaved display trace the concurrent dispatch can
produce, the events carrying a given request's index are exactly that
request's announcement followed by that request's result — so each tool's
announcement precedes that tool's own result even when siblings complete in
arbitrary order. -/
theorem c8_announcement_precedes_result (hs : Handlers)
    (parse : String → Option Json) (tcs : List ToolCall) (t : List Message)
    (i : Nat) (tc : ToolCall) (args : Json)
    (hmerge : Merge (requestEvents hs parse tcs) t)
    (htc : tcs.get? i = some tc)
    (hargs : parse tc.function.arguments = some args) :
    t.filter (fun m => m.toolCallIndex == some i)
      = [announcementMsg tc.function.name args i tcs.length,
         displayResultMsg hs tc args i] ∧
    ∃ j k, j < k ∧
      t.get? j = some (announcementMsg tc.function.name args i tcs.length) ∧
      t.get? k = some (displayResultMsg hs tc args i) := by
  have hli : (requestEvents hs parse tcs).get? i
      = some [announcementMsg tc.function.name args i tcs.length,
              displayResultMsg hs tc args i] := by
    rw [requestEvents_get?, htc]
    simp [runToolCall, hargs, settledEvents]
  have hother : ∀ (j : Nat) (lj : List Message), j ≠ i →
      (requestEvents hs parse tcs).get? j = some lj →
      ∀ x ∈ lj, (x.toolCallIndex == some i) = false := by
    intro j lj hj hjget x hx
    rw [requestEvents_get?] at hjget
    cases hg : tcs.get? j with
    | none => rw [hg] at hjget; exact Option.noConfusion hjget
    | some tc2 =>
        rw [hg] at hjget
        have hlj : settledEvents (runToolCall hs parse tcs.length tc2 j) = lj := by
          injection hjget
        rw [← hlj] at hx
        cases hp : parse tc2.function.arguments with
        | none => rw [runToolCall, hp] at hx; simp [settledEvents] at hx
        | some args2 =>
            rw [runToolCall, hp] at hx
            simp only [settledEvents, List.mem_cons, List.mem_singleton] at hx
            have hxi : x.toolCallIndex = some j := by
              rcases hx with h | h | h
              · rw [h]; rfl
              · rw [h]; rfl
              · exact absurd h (List.not_mem_nil x)
            rw [hxi]
            simp [hj]
  have hfil := merge_filter_eq (fun m => m.toolCallIndex == some i) hmerge i _ hli hother
  have hres : t.filter (fun m => m.toolCallIndex == some i)
      = [announcementMsg tc.function.name args i tcs.length,
         displayResultMsg hs tc args i] := by
    rw [hfil]
    simp [List.filter, announcementMsg, displayResultMsg]
  exact ⟨hres, filter_eq_pair_exists _ t _ _ hres⟩

/-- A concrete interleaving in which the two closures' display events complete
out of request order (announcements in order, results reversed). -/
theorem exMergeTrace :
    Merge (requestEvents exHandlers exParse [exCall0, exCall1])
      [exA0, exA1, exD1, exD0] := by
  have h : requestEvents exHandlers exParse [exCall0, exCall1]
      = [[exA0, exD0], [exA1, exD1]] := by decide
  rw [h]
  refine Merge.cons _ 0 exA0 [exD0] _ rfl ?_
  show Merge [[exD0], [exA1, exD1]] [exA1, exD1, exD0]
  refine Merge.cons _ 1 exA1 [exD1] _ rfl ?_
  show Merge [[exD0], [exD1]] [exD1, exD0]
  refine Merge.cons _ 1 exD1 [] _ rfl ?_
  show Merge [[exD0], []] [exD0]
  refine Merge.cons _ 0 exD0 [] _ rfl ?_
  show Merge [[], []] []
  exact Merge.nil _ (by simp)

/-- Witness for C8 on a trace whose results complete out of request order:
request 0's events within the trace are still its announcement followed by its
result. -/
theorem c8_announcement_precedes_result_witness :
    [exA0, exA1, exD1, exD0].filter (fun m => m.toolCallIndex == some 0)
      = [announcementMsg "execute_javascript" (Json.obj []) 0 2,
         displayResultMsg exHandlers exCall0 (Json.obj []) 0] ∧
    ∃ j k, j < k ∧
      [exA0, exA1, exD1, exD0].get? j
        = some (announcementMsg "execute_javascript" (Json.obj []) 0 2) ∧
      [exA0, exA1, exD1, exD0].get? k
        = some (displayResultMsg exHandlers exCall0 (Json.obj []) 0) :=
  c8_announcement_precedes_result exHandlers exParse [exCall0, exCall1]
    [exA0, exA1, exD1, exD0] 0 exCall0 (Json.obj []) exMergeTrace
    (by decide) (by rfl)

/-- Claim C9: when the Google API key or the CX id is missing (absent element
or empty field), the search handler returns the structured
`{configRequired: true}` payload and performs no network request at all. -/
theorem c9_search_missing_config_short_circuit (apiKey cx : Option String)
    (fetchOutcome : Except String FetchResponse) (now query : String)
    (hmiss : (falsyStr apiKey || falsyStr cx) = true) :
    (google_search apiKey cx fetchOutcome now query).requests = [] ∧
    (google_search apiKey cx fetchOutcome now query).output
      = googleConfigRequiredOutput := by
  unfold google_search
  rw [if_pos hmiss]
  exact ⟨rfl, rfl⟩

/-- Witness for C9: missing API key (with the CX id present), a would-be
network failure standing by that is never consulted. -/
theorem c9_search_missing_config_short_circuit_witness :
    (google_search none (some "cx-id") (Except.error "network down") "t0"
        "weather").requests = [] ∧
    (google_search none (some "cx-id") (Except.error "network down") "t0"
        "weather").output = googleConfigRequiredOutput :=
  c9_search_missing_config_short_circuit none (some "cx-id")
    (Except.error "network down") "t0" "weather" (by decide)

/-- Claim C10: whatever order the concurrently running closures complete in
(any `Merge` of the display events), the wire tool-result messages appended
after `Promise.allSettled` resolves are in the original request order: the
k-th appended wire message carries the k-th request's id. -/
theorem c10_wire_results_request_order (hs : Handlers)
    (parse : String → Option Json) (tcs : List ToolCall) (t : List Message)
    (hall : ∀ tc ∈ tcs, (parse tc.function.arguments).isSome = true)
    (hmerge : Merge (requestEvents hs parse tcs) t) :
    ((t ++ actualToolResults hs parse tcs).drop t.length).map
        (fun m => m.tool_call_id)
      = tcs.map (fun tc => some tc.id) := by
  rw [List.drop_left]
  exact actualToolResults_ids hs parse tcs hall

/-- Witness for C10 with the out-of-order display trace of `exMergeTrace`:
the wire suffix still pairs ids in request order. -/
theorem c10_wire_results_request_order_witness :
    (([exA0, exA1, exD1, exD0]
        ++ actualToolResults exHandlers exParse [exCall0, exCall1]).drop 4).map
        (fun m => m.tool_call_id)
      = [some "call_0", some "call_1"] :=
  c10_wire_results_request_order exHandlers exParse [exCall0, exCall1]
    [exA0, exA1, exD1, exD0] (by decide) exMergeTrace

end LlmAgent
